import Mathlib

/-!
Verification development for the `yuehua_ziniao_webdriver` package.

The definitions below are a shallow embedding of the Python sources:

* `send_request` / `sendAux` embed `HttpClient.send_request`
  (src/yuehua_ziniao_webdriver/http_client.py).  The network is modelled
  as a function `env : Nat → AttemptOutcome` giving, for each attempt
  index, the outcome of that POST-and-parse step (timeout, connection
  error, JSON decode error, or a parsed JSON value which is either
  `null` or an object).  The embedding keeps, besides the final result,
  the number of POSTs performed and the `requestId` carried by each
  POST, so that retry-budget and correlation-token properties can be
  stated.
* `update_core_loop` embeds the outer polling loop of
  `ZiniaoClient.update_core` (client.py); the wall-clock deadline is
  abstracted as an iteration budget, and `gen : Nat → String` models
  the per-iteration `uuid.uuid4()` fresh token generator.
* `fuzzy_match` / `exact_match` / `find_stores_in_list` embed the
  matching helpers of utils.py and the selection loop of
  `StoreManager.find_stores_by_name` (store.py); Python's `str.lower`
  is modelled by `Char.toLower` over the character list (they agree on
  ASCII, which is all the comparisons in this repository exercise).
* `open_store_by_name`, `open_single_store`, `open_stores_by_names`,
  `get_store_list` embed the corresponding `StoreManager` methods;
  the remote open operation is a parameter
  `openStore : String → Except StoreOpenError SessionState`.
* `close`, `browserProp`, `get_tab`, `navigate`, `check_ip` embed the
  `BrowserSession` methods of browser.py; driver behaviour (tab count,
  whether navigation raises, whether the readiness button appears) is
  passed in explicitly.
-/

deriving instance DecidableEq for Except

namespace Ziniao

/-- Resource descriptor: one element of the `browserList` payload.
Fields are optional exactly because the Python code reads them with
`dict.get`. -/
structure Store where
  browserName : Option String := none
  browserOauth : Option String := none
  browserId : Option String := none
deriving DecidableEq, Repr

/-- A parsed JSON response object.  `statusCode`/`message`/`browserList`
are optional because the code accesses them with `dict.get`. -/
structure Resp where
  statusCode : Option Int := none
  message : Option String := none
  browserList : Option (List Store) := none
deriving DecidableEq, Repr

/-- The outcome of one `requests.post` + `json.loads` step of
`HttpClient.send_request`: the underlying exceptions the code catches,
or a parsed value (`none` models JSON `null`). -/
inductive AttemptOutcome where
  | timeout
  | connError
  | jsonError
  | parsed (result : Option Resp)
deriving DecidableEq, Repr

/-- The typed failures `send_request` can raise:
`AuthenticationError`, `ZiniaoTimeoutError`, `CommunicationError`. -/
inductive SendError where
  | authenticationError
  | timeoutError
  | communicationError
deriving DecidableEq, Repr

/-- The observable behaviour of one `send_request` call: the returned
value or raised error, the number of POSTs performed, and the
`requestId` carried by each POST in order. -/
structure SendResult where
  result : Except SendError (Option Resp)
  attempts : Nat
  sentIds : List String
deriving DecidableEq, Repr

/-- The fields of the request dict that the transport logic reads. -/
structure RequestData where
  action : String
  requestId : String
deriving DecidableEq, Repr

/-- Account one more POST (carrying `rid`) in front of the behaviour of
the remaining attempts. -/
def step (rid : String) (rest : SendResult) : SendResult :=
  ⟨rest.result, rest.attempts + 1, rid :: rest.sentIds⟩

/-- The retry loop body of `HttpClient.send_request`
(http_client.py lines 82-181).  `attempt` is the current loop index and
the last explicit argument is `max_retries - attempt` (so `0` means the
final attempt).  Faithful points: the `data` dict — hence `rid` — is
fixed for the whole loop; the `retry_on_none` check runs before the
status-code check; the `raise AuthenticationError` on statusCode
`-10003` happens inside the `try`, so it is caught by the trailing
`except Exception` handler, which retries while budget remains and
otherwise raises `CommunicationError`; a JSON decode failure raises
`CommunicationError` without retrying. -/
def sendAux (env : Nat → AttemptOutcome) (rid : String) (retryOnNone : Bool)
    (attempt : Nat) : Nat → SendResult
  | 0 =>
    match env attempt with
    | .timeout => ⟨.error .timeoutError, 1, [rid]⟩
    | .connError => ⟨.error .communicationError, 1, [rid]⟩
    | .jsonError => ⟨.error .communicationError, 1, [rid]⟩
    | .parsed result =>
      if (result.bind Resp.statusCode) == some (-10003) then
        ⟨.error .communicationError, 1, [rid]⟩
      else
        ⟨.ok result, 1, [rid]⟩
  | r + 1 =>
    match env attempt with
    | .timeout => step rid (sendAux env rid retryOnNone (attempt + 1) r)
    | .connError => step rid (sendAux env rid retryOnNone (attempt + 1) r)
    | .jsonError => ⟨.error .communicationError, 1, [rid]⟩
    | .parsed result =>
      if result.isNone && retryOnNone then
        step rid (sendAux env rid retryOnNone (attempt + 1) r)
      else if (result.bind Resp.statusCode) == some (-10003) then
        step rid (sendAux env rid retryOnNone (attempt + 1) r)
      else
        ⟨.ok result, 1, [rid]⟩

/-- `HttpClient.send_request(data, retry_on_none)` with `max_retries`
taken from the client configuration. -/
def send_request (env : Nat → AttemptOutcome) (data : RequestData)
    (maxRetries : Nat) (retryOnNone : Bool) : SendResult :=
  sendAux env data.requestId retryOnNone 0 maxRetries

/-- The ways `ZiniaoClient.update_core` can finish: normal return,
`CoreUpdateError` on deadline, `UnsupportedVersionError`, or a
transport failure raised out of `send_request`. -/
inductive CoreUpdateResult where
  | updated
  | coreUpdateTimeout
  | unsupportedVersion
  | transportFailure (e : SendError)
deriving DecidableEq, Repr

/-- Observable behaviour of the `update_core` polling loop: its
outcome, the number of `send_request` calls performed, and the
`requestId` each of those calls carried. -/
structure UpdateRun where
  outcome : CoreUpdateResult
  iterations : Nat
  requestIds : List String
deriving DecidableEq, Repr

/-- The `while True` polling loop of `ZiniaoClient.update_core`
(client.py lines 203-241).  `gen i` models the fresh `uuid.uuid4()`
generated at iteration `i`; `sendResultAt i` is the result of the i-th
`send_request(..., retry_on_none=True)` call; the wall-clock deadline
`max_wait_time` is abstracted as an iteration budget (the last
argument), checked at the top of the loop exactly as in the source. -/
def update_core_loop (gen : Nat → String)
    (sendResultAt : Nat → Except SendError (Option Resp)) :
    (i : Nat) → Nat → UpdateRun
  | _, 0 => ⟨.coreUpdateTimeout, 0, []⟩
  | i, fuel + 1 =>
    let rid := gen i
    match sendResultAt i with
    | .error e => ⟨.transportFailure e, 1, [rid]⟩
    | .ok none =>
      let rest := update_core_loop gen sendResultAt (i + 1) fuel
      ⟨rest.outcome, rest.iterations + 1, rid :: rest.requestIds⟩
    | .ok (some r) =>
      match r.statusCode with
      | none => ⟨.unsupportedVersion, 1, [rid]⟩
      | some sc =>
        if sc == -10003 then ⟨.unsupportedVersion, 1, [rid]⟩
        else if sc == 0 then ⟨.updated, 1, [rid]⟩
        else
          let rest := update_core_loop gen sendResultAt (i + 1) fuel
          ⟨rest.outcome, rest.iterations + 1, rid :: rest.requestIds⟩

/-- Python `str.lower`, modelled character-wise (agrees with Python on
the ASCII names this repository compares). -/
def pyLower (s : String) : List Char :=
  s.toList.map Char.toLower

/-- `pat` is a prefix of `l` (char-wise). -/
def startsWithChars : List Char → List Char → Bool
  | [], _ => true
  | _ :: _, [] => false
  | a :: as, b :: bs => a == b && startsWithChars as bs

/-- Python's `pat in text` substring containment on char lists. -/
def substrIn (pat : List Char) : List Char → Bool
  | [] => pat.isEmpty
  | c :: rest => startsWithChars pat (c :: rest) || substrIn pat rest

/-- `utils.fuzzy_match(text, pattern)` with the default
`case_sensitive=False`: lower-case both and test `pattern in text`. -/
def fuzzy_match (text pat : String) : Bool :=
  substrIn (pyLower pat) (pyLower text)

/-- `utils.exact_match(text, pattern)` with the default
`case_sensitive=False`: lower-case both and test equality. -/
def exact_match (text pat : String) : Bool :=
  pyLower text == pyLower pat

/-- The selection loop of `StoreManager.find_stores_by_name`
(store.py lines 128-142) applied to an already-fetched listing: walk
the listing in order, read `browserName` with default `""`, and append
each descriptor that matches the query under the selected mode. -/
def find_stores_in_list (name : String) (exactMode : Bool) :
    List Store → List Store
  | [] => []
  | s :: rest =>
    let storeName := s.browserName.getD ""
    if (if exactMode then exact_match storeName name
        else fuzzy_match storeName name) then
      s :: find_stores_in_list name exactMode rest
    else
      find_stores_in_list name exactMode rest

/-- A `BrowserSession` as constructed by `StoreManager.open_store` and
mutated only by `close`: the Python object's fields plus the
`_closed` flag and whether `_browser` is still attached. -/
structure SessionState where
  port : Int
  storeId : String
  storeName : String
  ipCheckUrl : Option String
  launcherPage : Option String
  closed : Bool
  browserAttached : Bool
deriving DecidableEq, Repr

/-- The exceptions of the store-opening paths:
`StoreNotFoundError`, `MultipleStoresFoundError`, `StoreOperationError`. -/
inductive StoreOpenError where
  | storeNotFound (identifier : String)
  | multipleStoresFound (name : String) (count : Nat) (names : List String)
  | storeOperationError (operation : String) (storeId : String)
      (statusCode : Option Int) (message : Option String)
deriving DecidableEq, Repr

/-- Python truthiness of an optional string (`None` and `""` are
falsy). -/
def truthy : Option String → Bool
  | none => false
  | some s => !(s == "")

/-- `StoreManager.open_store_by_name` (store.py lines 256-308) after
the listing has been obtained: run the search loop, fail
`StoreNotFoundError` on zero matches, `MultipleStoresFoundError`
(carrying the query, the count and the matched names) on more than
one, otherwise read the single match's `browserOauth`, fail
`StoreOperationError` when it is missing or empty, and delegate to the
open operation with it. -/
def open_store_by_name (openStore : String → Except StoreOpenError SessionState)
    (storeList : List Store) (name : String) (exactMode : Bool) :
    Except StoreOpenError SessionState :=
  match find_stores_in_list name exactMode storeList with
  | [] => .error (.storeNotFound name)
  | [s] =>
    match s.browserOauth with
    | none => .error (.storeOperationError "打开" name none (some "店铺 OAuth 标识为空"))
    | some oauth =>
      if oauth == "" then
        .error (.storeOperationError "打开" name none (some "店铺 OAuth 标识为空"))
      else
        openStore oauth
  | ms => .error (.multipleStoresFound name ms.length
      (ms.map (fun s => s.browserName.getD "")))

/-- The per-name task body `open_single_store` of
`StoreManager.open_stores_by_names` (store.py lines 336-347): any
exception from `open_store_by_name` is caught at the task boundary and
turned into `(name, none)`. -/
def open_single_store (openByName : String → Except StoreOpenError SessionState)
    (name : String) : String × Option SessionState :=
  match openByName name with
  | .ok sess => (name, some sess)
  | .error _ => (name, none)

/-- The result collection of `StoreManager.open_stores_by_names`
(store.py lines 349-370): one task per name, keep only the successes,
keyed by the original name.  Completion order of the worker pool is
abstracted to submission order; the properties proved about the result
are order-insensitive (membership of the key/value pairs). -/
def open_stores_by_names (openByName : String → Except StoreOpenError SessionState) :
    List String → List (String × SessionState)
  | [] => []
  | name :: rest =>
    match open_single_store openByName name with
    | (n, some sess) => (n, sess) :: open_stores_by_names openByName rest
    | (_, none) => open_stores_by_names openByName rest

/-- What one `send_request` call did from `get_store_list`'s point of
view: raised a typed transport error, or returned a parsed value
(`none` models the Python `None` result). -/
inductive TransportResult where
  | raised (e : SendError)
  | returned (r : Option Resp)
deriving DecidableEq, Repr

/-- The `StoreManager` state read and written by `get_store_list`:
the `_store_list_cache` field. -/
structure MgrState where
  storeListCache : Option (List Store)
deriving DecidableEq, Repr

/-- The failures of `get_store_list`: a propagated transport exception
or a `StoreOperationError`. -/
inductive GetListError where
  | transport (e : SendError)
  | opFailure (statusCode : Option Int) (message : String)
deriving DecidableEq, Repr

/-- `StoreManager.get_store_list` (store.py lines 49-102): return the
cache when asked to and it exists; otherwise consult the transport;
a raised transport error propagates; a `None` result raises
`StoreOperationError`; statusCode 0 replaces the cache with the
returned `browserList` (default `[]`) and returns it; any other
statusCode raises `StoreOperationError` with the response message
(default "未知错误").  The function returns the result together with
the updated manager state. -/
def get_store_list (tr : TransportResult) (useCache : Bool) (st : MgrState) :
    Except GetListError (List Store) × MgrState :=
  match useCache, st.storeListCache with
  | true, some cache => (.ok cache, st)
  | _, _ =>
    match tr with
    | .raised e => (.error (.transport e), st)
    | .returned none => (.error (.opFailure none "HTTP 请求返回 None"), st)
    | .returned (some r) =>
      if r.statusCode == some 0 then
        let bl := r.browserList.getD []
        (.ok bl, { st with storeListCache := some bl })
      else
        (.error (.opFailure r.statusCode (r.message.getD "未知错误")), st)

/-- Observable behaviour of one `BrowserSession.close` call: the new
session state and how many times the close callback was invoked.  The
function is total: `close` never raises (a raising callback is caught
by the `try`/`except` in browser.py lines 213-218). -/
structure CloseResult where
  state : SessionState
  callbackInvocations : Nat
deriving DecidableEq, Repr

/-- `BrowserSession.close` (browser.py lines 201-221): no-op when
already closed; otherwise invoke the callback if one is bound
(swallowing any exception it raises — `callbackRaises` does not change
the outcome), then set `_closed = True` and drop `_browser`
unconditionally. -/
def close (hasCallback callbackRaises : Bool) (s : SessionState) : CloseResult :=
  if s.closed then ⟨s, 0⟩
  else
    ⟨{ s with closed := true, browserAttached := false },
      if hasCallback then 1 else 0⟩

/-- The failures of the session operations:
`ZiniaoError("浏览器会话已关闭")`, `ZiniaoError("浏览器对象未初始化")`,
the `IndexError` of `get_tab`, and a driver exception. -/
inductive OpError where
  | sessionClosed
  | browserNotInit
  | indexOutOfRange (i : Int)
  | envFailure
deriving DecidableEq, Repr

/-- The `BrowserSession.browser` property (browser.py lines 66-82):
raise when the session is closed, raise when `_browser` is gone,
otherwise hand out the driver. -/
def browserProp (s : SessionState) : Except OpError Unit :=
  if s.closed then .error .sessionClosed
  else if !s.browserAttached then .error .browserNotInit
  else .ok ()

/-- `BrowserSession.get_tab` (browser.py lines 84-100): `-1` means the
latest tab; otherwise index into the tab list, raising `IndexError`
out of range.  Both branches go through the `browser` property first.
Tabs are modelled by their index; `tabCount` is the driver's current
number of tabs. -/
def get_tab (s : SessionState) (tabCount : Nat) (index : Int) :
    Except OpError Nat :=
  if index == -1 then
    match browserProp s with
    | .error e => .error e
    | .ok _ => .ok (tabCount - 1)
  else
    match browserProp s with
    | .error e => .error e
    | .ok _ =>
      if 0 ≤ index && index < (tabCount : Int) then .ok index.toNat
      else .error (.indexOutOfRange index)

/-- `BrowserSession.navigate` (browser.py lines 187-199): get the
latest tab, then drive it; a driver exception (`navRaises`)
propagates, as does the session-closed error from `get_tab`. -/
def navigate (s : SessionState) (tabCount : Nat) (navRaises : Bool)
    (url : String) : Except OpError Unit :=
  match get_tab s tabCount (-1) with
  | .error e => .error e
  | .ok _ => if navRaises then .error .envFailure else .ok ()

/-- Python's `a or b` on optional strings (`None` and `""` are falsy). -/
def pyOr (a b : Option String) : Option String :=
  match a with
  | none => b
  | some u => if u == "" then b else some u

/-- `BrowserSession.check_ip` (browser.py lines 102-144): the effective
URL is `ip_check_url or self.ip_check_url`; a falsy URL returns `True`
("skip"); otherwise everything inside the `try` — including the
session-closed error raised by `get_tab` — is caught and reported as
`False`; with a live tab the result is whether the success button
appeared before the timeout.  The function never raises. -/
def check_ip (s : SessionState) (tabCount : Nat) (navRaises buttonFound : Bool)
    (ipCheckUrlArg : Option String) : Bool :=
  match pyOr ipCheckUrlArg s.ipCheckUrl with
  | none => true
  | some url =>
    if url == "" then true
    else
      match get_tab s tabCount (-1) with
      | .error _ => false
      | .ok _ => if navRaises then false else buttonFound

/-! Concrete values used by counterexamples and witnesses. -/

/-- Transport behaviour: every attempt parses to an object whose
`statusCode` is the authentication sentinel `-10003`. -/
def authEnv : Nat → AttemptOutcome :=
  fun _ => .parsed (some { statusCode := some (-10003) })

/-- Transport behaviour: connection failure on attempt 0, then a
successful `statusCode 0` response. -/
def connThenOkEnv : Nat → AttemptOutcome :=
  fun i => if i == 0 then .connError else .parsed (some { statusCode := some 0 })

/-- Transport behaviour: every attempt parses to JSON `null`. -/
def nullEnv : Nat → AttemptOutcome :=
  fun _ => .parsed none

/-- A session as produced by a successful open. -/
def sess0 : SessionState :=
  ⟨9222, "oauth-1", "Shop", none, none, false, true⟩

/-- A stub open operation that always succeeds. -/
def openStoreStub : String → Except StoreOpenError SessionState :=
  fun _ => .ok sess0

/-- A resolver where "B" is ambiguous and every other name opens. -/
def openABC : String → Except StoreOpenError SessionState :=
  fun n =>
    if n == "B" then .error (.multipleStoresFound "B" 2 ["Shop", "Shop"])
    else .ok sess0

/-- An already-closed session that still carries a readiness-check URL. -/
def closedWithUrl : SessionState :=
  ⟨9222, "oauth-1", "Shop", some "http://ip.check", none, true, false⟩

/-- A concrete listing entry. -/
def sess0Store : Store :=
  ⟨some "Shop", some "oauth-1", none⟩

/-! Helper lemmas about the transport loop. -/

/-- With a connection failure on every attempt, the loop from any
start point performs one POST per remaining attempt, all carrying the
same `requestId`, and ends in `CommunicationError`. -/
theorem sendAux_connError (rid : String) (ron : Bool) (n : Nat) :
    ∀ a, sendAux (fun _ => .connError) rid ron a n =
      ⟨.error .communicationError, n + 1, List.replicate (n + 1) rid⟩ := by
  induction n with
  | zero => intro a; simp [sendAux]
  | succ m ih => intro a; simp [sendAux, step, ih (a + 1), List.replicate_succ]

/-- Every POST of one `send_request` call carries the `requestId` of
the request payload: the list of sent ids is constant. -/
theorem sendAux_sentIds (env : Nat → AttemptOutcome) (rid : String) (ron : Bool)
    (n : Nat) : ∀ a, (sendAux env rid ron a n).sentIds =
      List.replicate (sendAux env rid ron a n).attempts rid := by
  induction n with
  | zero =>
    intro a
    cases henv : env a with
    | timeout => simp [sendAux, henv, List.replicate]
    | connError => simp [sendAux, henv, List.replicate]
    | jsonError => simp [sendAux, henv, List.replicate]
    | parsed result =>
      simp only [sendAux, henv]
      split <;> simp [List.replicate]
  | succ m ih =>
    intro a
    cases henv : env a with
    | timeout => simp [sendAux, henv, step, List.replicate_succ, ih (a + 1)]
    | connError => simp [sendAux, henv, step, List.replicate_succ, ih (a + 1)]
    | jsonError => simp [sendAux, henv, List.replicate]
    | parsed result =>
      simp only [sendAux, henv]
      split
      · simp [step, List.replicate_succ, ih (a + 1)]
      · split
        · simp [step, List.replicate_succ, ih (a + 1)]
        · simp [List.replicate]

/-- With JSON `null` on every attempt and `retry_on_none=True`, the
loop performs one POST per remaining attempt, all with the same id,
and finally returns the `null` to the caller. -/
theorem sendAux_null (rid : String) (n : Nat) :
    ∀ a, sendAux (fun _ => .parsed none) rid true a n =
      ⟨.ok none, n + 1, List.replicate (n + 1) rid⟩ := by
  induction n with
  | zero => intro a; simp [sendAux]
  | succ m ih => intro a; simp [sendAux, step, ih (a + 1), List.replicate_succ]

/-- The `update_core` polling loop sends the freshly generated token
`gen i` on its i-th iteration: the ids it sends are exactly the image
of the iteration indices under the generator. -/
theorem update_core_loop_ids (gen : Nat → String)
    (f : Nat → Except SendError (Option Resp)) (fuel : Nat) :
    ∀ i, (update_core_loop gen f i fuel).requestIds =
      (List.range' i (update_core_loop gen f i fuel).iterations).map gen := by
  induction fuel with
  | zero => intro i; simp [update_core_loop]
  | succ m ih =>
    intro i
    simp only [update_core_loop]
    cases f i with
    | error e => simp [List.range'_succ]
    | ok o =>
      cases o with
      | none => simp [ih (i + 1), List.range'_succ]
      | some r =>
        cases hsc : r.statusCode with
        | none => simp [hsc, List.range'_succ]
        | some sc =>
          by_cases h1 : (sc == -10003) = true
          · simp [hsc, h1, List.range'_succ]
          · by_cases h2 : (sc == 0) = true
            · simp [hsc, h1, h2, List.range'_succ]
            · simp [hsc, h1, h2, ih (i + 1), List.range'_succ]

/-- The `update_core` polling loop performs at most as many iterations
as its deadline budget allows. -/
theorem update_core_loop_bounded (gen : Nat → String)
    (f : Nat → Except SendError (Option Resp)) (fuel : Nat) :
    ∀ i, (update_core_loop gen f i fuel).iterations ≤ fuel := by
  induction fuel with
  | zero => intro i; simp [update_core_loop]
  | succ m ih =>
    intro i
    simp only [update_core_loop]
    cases f i with
    | error e => simp
    | ok o =>
      cases o with
      | none => simpa using Nat.succ_le_succ (ih (i + 1))
      | some r =>
        cases hsc : r.statusCode with
        | none => simp [hsc]
        | some sc =>
          by_cases h1 : (sc == -10003) = true
          · simp [hsc, h1]
          · by_cases h2 : (sc == 0) = true
            · simp [hsc, h1, h2]
            · simpa [hsc, h1, h2] using Nat.succ_le_succ (ih (i + 1))

/-! Claim theorems. -/

/-- C1: the claim says a `statusCode = -10003` response raises
AuthenticationFailure immediately, on attempt 1, without consuming
retry budget and without being converted to another failure type.  The
code disagrees: the `raise AuthenticationError` sits inside the `try`
block, so the trailing `except Exception` catches it, retries, and
after the budget is exhausted raises `CommunicationError`.  At the
default `max_retries = 3` with the sentinel on every attempt, the
client performs 4 POSTs and raises `CommunicationError`, never
`AuthenticationError` — contradicting the claim and `send_request`'s
own docstring. -/
theorem auth_sentinel_retried_then_converted :
    send_request authEnv ⟨"getBrowserList", "r1"⟩ 3 false =
      ⟨.error .communicationError, 4, ["r1", "r1", "r1", "r1"]⟩ := by
  decide

/-- C2 (counterexample): a logical call with `max_retries = 1` whose
first attempt hits a connection failure retries and succeeds, but the
retried attempt re-posts the same `data` dict: both POSTs carry
requestId "r1", so the sent ids are not pairwise distinct, refuting
"freshly generated and differs from the requestId of every earlier
attempt". -/
theorem retry_reuses_requestId_cx :
    (send_request connThenOkEnv ⟨"startBrowser", "r1"⟩ 1 false).attempts = 2 ∧
    ¬ (send_request connThenOkEnv ⟨"startBrowser", "r1"⟩ 1 false).sentIds.Nodup := by
  decide

/-- C2 (amended): within one `send_request` call every delivery
attempt — including every retry — carries the identical `requestId`,
the one stored in the request payload when the logical call was built;
retries do not regenerate it.  (Freshness holds only per logical call:
each caller builds a new `uuid.uuid4()` before calling
`send_request`.) -/
theorem send_request_ids_constant (env : Nat → AttemptOutcome)
    (data : RequestData) (maxRetries : Nat) (retryOnNone : Bool) :
    (send_request env data maxRetries retryOnNone).sentIds =
      List.replicate (send_request env data maxRetries retryOnNone).attempts
        data.requestId := by
  simp [send_request, sendAux_sentIds]

/-- C3: with `max_retries = N` and a connection failure on every
attempt, `send_request` performs exactly `N + 1` delivery attempts and
then raises `CommunicationError` — the failure is surfaced, never
swallowed. -/
theorem connection_failure_exhausts_budget (data : RequestData) (N : Nat)
    (retryOnNone : Bool) :
    send_request (fun _ => .connError) data N retryOnNone =
      ⟨.error .communicationError, N + 1, List.replicate (N + 1) data.requestId⟩ := by
  simp [send_request, sendAux_connError]

/-- C4 (counterexample): with `retry_on_none=True`, `max_retries = 2`
and a `null` response on every attempt, `send_request` stops after
exactly `max_retries + 1 = 3` attempts — the null-triggered resends
are charged to the `max_retries` budget, not to a wall-clock
deadline — and all three POSTs reuse the same requestId "r1" rather
than a fresh token. -/
theorem retry_on_none_counts_against_budget :
    send_request nullEnv ⟨"updateCore", "r1"⟩ 2 true =
      ⟨.ok none, 3, ["r1", "r1", "r1"]⟩ := by
  decide

/-- C4 (amended): inside `send_request`, a `null` response with
`retry_on_none=True` triggers a wait-then-resend that reuses the same
correlation token and is counted against the `max_retries` budget
(with persistently-null responses the call makes exactly
`max_retries + 1` attempts, all with the payload's requestId, then
returns the null); the deadline-bounded polling with a fresh token per
resend is implemented by the caller `update_core`, whose outer loop
sends the freshly generated token of each iteration and performs at
most its deadline budget of iterations. -/
theorem retry_on_none_budget_and_update_polling :
    (∀ (data : RequestData) (N : Nat),
      send_request (fun _ => .parsed none) data N true =
        ⟨.ok none, N + 1, List.replicate (N + 1) data.requestId⟩) ∧
    (∀ (gen : Nat → String) (f : Nat → Except SendError (Option Resp))
        (fuel i : Nat),
      (update_core_loop gen f i fuel).requestIds =
        (List.range' i (update_core_loop gen f i fuel).iterations).map gen ∧
      (update_core_loop gen f i fuel).iterations ≤ fuel) :=
  ⟨fun data N => by simp [send_request, sendAux_null],
   fun gen f fuel i =>
    ⟨update_core_loop_ids gen f fuel i, update_core_loop_bounded gen f fuel i⟩⟩

/-- C5: the search loop returns exactly the descriptors whose
`displayName` (`browserName`, default `""`) matches the query
case-insensitively — whole-string equality under `exact=true`,
substring containment of the query under `exact=false` — in listing
order with no deduplication or ranking (it is the order-preserving
filter of the listing by that predicate); and the equality is not
whitespace-insensitive: a trailing space defeats an otherwise
case-insensitive exact match. -/
theorem search_filters_case_insensitive (l : List Store) (q : String) :
    find_stores_in_list q true l =
      l.filter (fun s => pyLower (s.browserName.getD "") == pyLower q) ∧
    find_stores_in_list q false l =
      l.filter (fun s => substrIn (pyLower q) (pyLower (s.browserName.getD ""))) ∧
    exact_match "Store One" "Store One" = true ∧
    exact_match "store one " "Store One" = false ∧
    fuzzy_match "My Amazon Shop" "amazon" = true ∧
    fuzzy_match "Foo Bar" "amazon" = false := by
  refine ⟨?_, ?_, by decide, by decide, by decide, by decide⟩
  · induction l with
    | nil => rfl
    | cons s rest ih =>
      simp only [find_stores_in_list, List.filter_cons, exact_match, if_true]
      split <;> simp_all [exact_match]
  · induction l with
    | nil => rfl
    | cons s rest ih =>
      simp only [find_stores_in_list, List.filter_cons, fuzzy_match,
        Bool.if_false_left]
      split <;> simp_all [fuzzy_match]

/-- C6: `open_store_by_name` fails `StoreNotFoundError(query)` on zero
matches; fails `MultipleStoresFoundError` carrying the query, the
match count and the matched display names on more than one match; and
on exactly one match delegates to the open operation with that match's
`browserOauth`, failing `StoreOperationError` when that identifier is
missing or empty. -/
theorem open_by_name_dispatch
    (openStore : String → Except StoreOpenError SessionState)
    (l : List Store) (q : String) (ex : Bool) :
    (find_stores_in_list q ex l = [] →
      open_store_by_name openStore l q ex = .error (.storeNotFound q)) ∧
    (1 < (find_stores_in_list q ex l).length →
      open_store_by_name openStore l q ex =
        .error (.multipleStoresFound q (find_stores_in_list q ex l).length
          ((find_stores_in_list q ex l).map (fun s => s.browserName.getD "")))) ∧
    (∀ s, find_stores_in_list q ex l = [s] →
      (truthy s.browserOauth = false →
        open_store_by_name openStore l q ex =
          .error (.storeOperationError "打开" q none (some "店铺 OAuth 标识为空"))) ∧
      (∀ oauth, s.browserOauth = some oauth → (oauth == "") = false →
        open_store_by_name openStore l q ex = openStore oauth)) := by
  refine ⟨?_, ?_, ?_⟩
  · intro h
    simp [open_store_by_name, h]
  · intro h
    rcases hm : find_stores_in_list q ex l with _ | ⟨s, _ | ⟨t, rest⟩⟩
    · rw [hm] at h; simp at h
    · rw [hm] at h; simp at h
    · simp [open_store_by_name, hm]
  · intro s hs
    constructor
    · intro ht
      cases hoauth : s.browserOauth with
      | none => simp [open_store_by_name, hs, hoauth]
      | some o =>
        rw [hoauth] at ht
        simp only [truthy, Bool.not_eq_false'] at ht
        simp [open_store_by_name, hs, hoauth, ht]
    · intro oauth ho hne
      simp [open_store_by_name, hs, ho, hne]

/-- C6 (witness): over an empty listing every query has zero matches,
and `open_store_by_name` fails `StoreNotFoundError("X")`. -/
theorem open_by_name_dispatch_w :
    open_store_by_name openStoreStub [] "X" true = .error (.storeNotFound "X") :=
  (open_by_name_dispatch openStoreStub [] "X" true).1 rfl

/-- C7: `close` is idempotent and absorbing: after any `close` call
the handle is closed, a second `close` performs no callback invocation
and leaves the state unchanged, the two calls together invoke the
teardown callback at most once, and — since `close` is a total
function into `CloseResult`, for a raising callback as well
(`callbackRaises` is arbitrary) — `close` itself never raises. -/
theorem close_idempotent (hasCb cbRaises : Bool) (s : SessionState) :
    (close hasCb cbRaises s).state.closed = true ∧
    close hasCb cbRaises (close hasCb cbRaises s).state =
      ⟨(close hasCb cbRaises s).state, 0⟩ ∧
    (close hasCb cbRaises s).callbackInvocations +
      (close hasCb cbRaises (close hasCb cbRaises s).state).callbackInvocations
        ≤ 1 := by
  by_cases h : s.closed
  · refine ⟨by simp [close, h], by simp [close, h], ?_⟩
    simp [close, h]
  · refine ⟨by simp [close, h], by simp [close, h], ?_⟩
    cases hasCb <;> simp [close, h]

/-- C8 (counterexample): on an already-closed handle the readiness
check does not fail with SessionClosed: with a readiness URL in effect
it returns the value `false` (the internal session-closed error is
caught by the check's catch-all), and with no URL it returns `true` —
refuting "every operation other than close() fails with
SessionClosed". -/
theorem check_ip_on_closed_returns_value :
    closedWithUrl.closed = true ∧
    check_ip closedWithUrl 1 false true none = false ∧
    check_ip { closedWithUrl with ipCheckUrl := none } 1 false true none = true := by
  decide

/-- C8 (amended): on a closed handle, `get_tab` (the control surface
accessor, for every index) and `navigate` fail with the session-closed
error; `check_ip` (the readiness check) never raises: it returns
`true` when the effective URL (argument `or` stored) is falsy and
`false` otherwise, the session-closed error being swallowed by its
advisory catch-all. -/
theorem closed_session_ops (s : SessionState) (tabCount : Nat)
    (navRaises buttonFound : Bool) (url : String) (urlArg : Option String)
    (index : Int) (h : s.closed = true) :
    get_tab s tabCount index = .error .sessionClosed ∧
    navigate s tabCount navRaises url = .error .sessionClosed ∧
    check_ip s tabCount navRaises buttonFound urlArg =
      ((pyOr urlArg s.ipCheckUrl).getD "" == "") := by
  have hb : browserProp s = .error .sessionClosed := by simp [browserProp, h]
  have hg : ∀ i : Int, get_tab s tabCount i = .error .sessionClosed := by
    intro i
    unfold get_tab
    rw [hb]
    split <;> rfl
  refine ⟨hg index, ?_, ?_⟩
  · simp [navigate, hg]
  · unfold check_ip
    cases hp : pyOr urlArg s.ipCheckUrl with
    | none => simp
    | some u =>
      cases hu : (u == "") with
      | true => simp [hu, Option.getD]
      | false => simp [hu, Option.getD, hg]

/-- C8 (witness): a concrete closed handle: get_tab and navigate fail
with the session-closed error, and the readiness check on it (URL in
effect) evaluates to false. -/
theorem closed_session_ops_w :
    get_tab closedWithUrl 1 0 = .error .sessionClosed ∧
    navigate closedWithUrl 1 false "http://x" = .error .sessionClosed ∧
    check_ip closedWithUrl 1 false false none = false :=
  ⟨(closed_session_ops closedWithUrl 1 false false "http://x" none 0 rfl).1,
   (closed_session_ops closedWithUrl 1 false false "http://x" none 0 rfl).2.1,
   ((closed_session_ops closedWithUrl 1 false false "http://x" none 0 rfl).2.2).trans
     (by decide)⟩

/-- C9: the batch result contains an entry for a name exactly when
that name is in the batch and its resolver call succeeds — per-task
failures of any kind are absent from the result and never propagate
(the collector is a total function) — and every entry maps a name to
the session its own resolution produced. -/
theorem open_many_partial_failure
    (f : String → Except StoreOpenError SessionState)
    (names : List String) (name : String) :
    ((∃ sess, (name, sess) ∈ open_stores_by_names f names) ↔
      (name ∈ names ∧ ∃ sess, f name = .ok sess)) ∧
    (∀ sess, (name, sess) ∈ open_stores_by_names f names →
      f name = .ok sess) := by
  induction names with
  | nil => simp [open_stores_by_names]
  | cons n rest ih =>
    cases hf : f n with
    | error e =>
      have hlist : open_stores_by_names f (n :: rest) =
          open_stores_by_names f rest := by
        simp [open_stores_by_names, open_single_store, hf]
      rw [hlist]
      constructor
      · rw [ih.1]
        by_cases hn : name = n
        · subst hn
          simp [hf]
        · simp [hn]
      · exact ih.2
    | ok sess0 =>
      have hlist : open_stores_by_names f (n :: rest) =
          (n, sess0) :: open_stores_by_names f rest := by
        simp [open_stores_by_names, open_single_store, hf]
      rw [hlist]
      constructor
      · constructor
        · rintro ⟨sess, hmem⟩
          rcases List.mem_cons.mp hmem with heq | hmem'
          · rcases Prod.mk.injEq .. ▸ heq with ⟨h1, h2⟩
            refine ⟨by simp [h1], sess, ?_⟩
            rw [h1, hf, h2]
          · exact ⟨List.mem_cons_of_mem _ (ih.1.mp ⟨sess, hmem'⟩).1,
              (ih.1.mp ⟨sess, hmem'⟩).2⟩
        · rintro ⟨hmem, sess, hok⟩
          by_cases hn : name = n
          · subst hn
            exact ⟨sess0, by simp⟩
          · rcases List.mem_cons.mp hmem with heq | hmem'
            · exact absurd heq hn
            · rcases (ih.1.mpr ⟨hmem', sess, hok⟩) with ⟨sess', hmem''⟩
              exact ⟨sess', List.mem_cons_of_mem _ hmem''⟩
      · intro sess hmem
        rcases List.mem_cons.mp hmem with heq | hmem'
        · rcases Prod.mk.injEq .. ▸ heq with ⟨h1, h2⟩
          rw [h1, hf, h2]
        · exact ih.2 sess hmem'

/-- C9 (witness): the spec's example — names A, B, C where resolving B
is ambiguous: A is present in the result. -/
theorem open_many_partial_failure_w :
    ∃ sess, ("A", sess) ∈ open_stores_by_names openABC ["A", "B", "C"] :=
  (open_many_partial_failure openABC ["A", "B", "C"] "A").1.mpr
    ⟨by decide, sess0, by decide⟩

/-- C10: `get_store_list` leaves the cached listing untouched on every
failure path (non-zero or missing statusCode, `None` response, raised
transport error), and the manager state changes only when the
transport returned a response with `statusCode 0`, in which case the
cache becomes exactly that response's `browserList` (default `[]`). -/
theorem get_store_list_cache_discipline (tr : TransportResult)
    (useCache : Bool) (st : MgrState) :
    (∀ e, (get_store_list tr useCache st).1 = .error e →
      (get_store_list tr useCache st).2 = st) ∧
    ((get_store_list tr useCache st).2 ≠ st →
      ∃ r, tr = .returned (some r) ∧ r.statusCode = some 0 ∧
        (get_store_list tr useCache st).2.storeListCache =
          some (r.browserList.getD [])) := by
  unfold get_store_list
  split
  · exact ⟨fun e h => rfl, fun h => absurd rfl h⟩
  · cases tr with
    | raised e => exact ⟨fun e' h => rfl, fun h => absurd rfl h⟩
    | returned o =>
      cases o with
      | none => exact ⟨fun e' h => rfl, fun h => absurd rfl h⟩
      | some r =>
        by_cases hsc : (r.statusCode == some 0) = true
        · refine ⟨fun e' h => by simp [hsc] at h, fun h => ?_⟩
          exact ⟨r, rfl, beq_iff_eq.mp hsc, by simp [hsc]⟩
        · rw [Bool.not_eq_true] at hsc
          exact ⟨fun e' h => by simp [hsc], fun h => absurd (by simp [hsc]) h⟩

/-- C10 (witness): a raised transport error leaves the cache as it
was. -/
theorem get_store_list_cache_discipline_w :
    (get_store_list (.raised .communicationError) false ⟨some [sess0Store]⟩).2 =
      ⟨some [sess0Store]⟩ :=
  (get_store_list_cache_discipline (.raised .communicationError) false
      ⟨some [sess0Store]⟩).1
    (.transport .communicationError) rfl

end Ziniao
